import Mathlib

/-!
Shallow embedding of `src/java.py`: a Salt state module that installs a
trusted root certificate into a Java trust store (`trust_cert`) with three
discovery helpers (`_find_java_home`, `_find_trust_store`, `_find_keytool`).

External collaborators — the file system, the login shell and the `keytool`
binary — are modelled as oracles packaged in a `World`.  Every
`subprocess.check_output` call is recorded in a trace of `Call`s so that
claims about which probes run and which invocations mutate the trust store
can be stated.  `subprocess.check_output` on a missing executable raises
`OSError` (`FileNotFoundError`), which the source's
`except subprocess.CalledProcessError` clauses do not catch; that path is
modelled with `Except`.
-/

/-- Behaviour of one external process invocation, keyed by its argv: either
the process runs (with an exit status, a stdout text and a stderr text), or
the executable is missing, in which case Python raises `OSError`. -/
inductive Exec where
  | runs (success : Bool) (stdout stderr : String)
  | noBinary
deriving DecidableEq, Repr

/-- What `subprocess.check_output` does as seen by the caller: normal return
of the captured text, `CalledProcessError` carrying the captured text
(`e.output`), or an uncaught `OSError` for a missing executable. -/
inductive ProcResult where
  | ok (output : String)
  | calledProcessError (output : String)
  | osError
deriving DecidableEq, Repr

/-- The only exception that can escape the module: an `OSError` from invoking
a missing executable, caught by none of the `except
subprocess.CalledProcessError` clauses in the source. -/
inductive PyExc where
  | uncaughtOSError
deriving DecidableEq, Repr

/-- The call site in `src/java.py` that performed an external invocation. -/
inductive Tag where
  | bashQuery   -- line 141, `_find_java_home`
  | helpProbe   -- line 152, `_find_keytool`
  | listAlias   -- line 59, alias-existence probe
  | listAll     -- line 74, unfiltered store listing
  | printCert   -- line 84, certificate decode probe
  | importCert  -- line 96, the mutating import
deriving DecidableEq, Repr

/-- One recorded external invocation: its call site and its argv. -/
structure Call where
  tag : Tag
  argv : List String
deriving DecidableEq, Repr

/-- The external world: the ambient dry-run flag `__opts__` `test`, the file
system oracles behind `os.path.realpath`, `os.path.isdir` and `os.walk`
(`walk r` lists `(root, dirnames, filenames)` triples in walk order), and the
behaviour of every external process keyed by argv. -/
structure World where
  test : Bool
  realpath : String → String
  isdir : String → Bool
  walk : String → List (String × List String × List String)
  exec : List String → Exec

/-- Model of `subprocess.check_output argv`, with or without
`stderr=subprocess.STDOUT`: with the redirect the captured text is the
combined stdout and stderr; without it only stdout is captured. -/
def check_output (w : World) (argv : List String) (stderrToStdout : Bool) :
    ProcResult :=
  match w.exec argv with
  | .noBinary => .osError
  | .runs true out err => .ok (if stderrToStdout then out ++ err else out)
  | .runs false out err => .calledProcessError (if stderrToStdout then out ++ err else out)

/-- Python truthiness of the optional `java_home` string: `None` and the
empty string are falsy. -/
def truthy : Option String → Bool
  | none => false
  | some s => s != ""

/-- Model of `os.path.join root filename` for a root without a trailing separator. -/
def path_join (root filename : String) : String := root ++ "/" ++ filename

/-- The argv of the login-shell environment query on line 141. -/
def bash_query : List String :=
  ["/bin/bash", "-c", "source /etc/profile && echo -n $JAVA_HOME"]

/-- The shell fallback of `_find_java_home` (lines 140-145): run the login
shell query; on `CalledProcessError` the result is `None`; on success it is
the echoed string (possibly empty).  A missing `/bin/bash` raises an uncaught
`OSError`. -/
def shell_java_home (w : World) : Except PyExc (Option String) × List Call :=
  match check_output w bash_query false with
  | .ok out => (.ok (some out), [⟨.bashQuery, bash_query⟩])
  | .calledProcessError _ => (.ok none, [⟨.bashQuery, bash_query⟩])
  | .osError => (.error .uncaughtOSError, [⟨.bashQuery, bash_query⟩])

/-- Model of `_find_java_home` (lines 130-145): a truthy explicit override whose
symlink-resolved path is an existing directory is returned unchanged (no
further validation); any other override, or none, falls back to the shell
query. -/
def _find_java_home (w : World) (java_home : Option String) :
    Except PyExc (Option String) × List Call :=
  match java_home with
  | some jh =>
    if jh != "" && w.isdir (w.realpath jh) then (.ok (some jh), [])
    else shell_java_home w
  | none => shell_java_home w

/-- Model of `_find_trust_store` (lines 119-127): walk the installation tree, collect
every file whose name matches the literal `fnmatch` pattern `cacerts`, and
return the first match in walk order, or `None` if there is none. -/
def _find_trust_store (w : World) (java_home : String) : Option String :=
  let found := (w.walk java_home).flatMap fun rdf =>
    ((rdf.2.2).filter fun f => f == "cacerts").map fun f => path_join rdf.1 f
  if found.length ≤ 0 then none else found.head?

/-- Model of `_find_keytool` (lines 148-160): probe `/usr/bin/keytool` and then
`<java_home>/bin/keytool` with `-help` (stderr combined); the first candidate
that runs successfully is returned; a candidate that exits nonzero is treated
as not found yet; a missing executable raises an uncaught `OSError`. -/
def _find_keytool (w : World) (java_home : String) :
    Except PyExc (Option String) × List Call :=
  match check_output w ["/usr/bin/keytool", "-help"] true with
  | .osError =>
    (.error .uncaughtOSError, [⟨.helpProbe, ["/usr/bin/keytool", "-help"]⟩])
  | .ok _ => (.ok (some "/usr/bin/keytool"), [⟨.helpProbe, ["/usr/bin/keytool", "-help"]⟩])
  | .calledProcessError _ =>
    match check_output w [java_home ++ "/bin/keytool", "-help"] true with
    | .osError =>
      (.error .uncaughtOSError,
       [⟨.helpProbe, ["/usr/bin/keytool", "-help"]⟩,
        ⟨.helpProbe, [java_home ++ "/bin/keytool", "-help"]⟩])
    | .ok _ =>
      (.ok (some (java_home ++ "/bin/keytool")),
       [⟨.helpProbe, ["/usr/bin/keytool", "-help"]⟩,
        ⟨.helpProbe, [java_home ++ "/bin/keytool", "-help"]⟩])
    | .calledProcessError _ =>
      (.ok none,
       [⟨.helpProbe, ["/usr/bin/keytool", "-help"]⟩,
        ⟨.helpProbe, [java_home ++ "/bin/keytool", "-help"]⟩])

/-- The `changes` dictionary recorded on an actual or simulated mutation. -/
structure Changes where
  old : String
  new : String
deriving DecidableEq, Repr

/-- The state return dictionary `ret` (line 21).  `result` is `Option Bool`:
`some b` for Python `True` or `False`, `none` for Python `None`.  `changes`
is `none` for the empty dict and `some c` for a `{old, new}` dict. -/
structure Ret where
  name : String
  changes : Option Changes
  result : Option Bool
  comment : String
deriving DecidableEq, Repr

/-- The `result_code` table (lines 24-31): live mode maps the keys
`none`, `failure`, `success` to `True`, `False`, `True`; when
`__opts__` `test` is set, `failure` and `success` are replaced by `None`. -/
structure ResultCode where
  none_ : Option Bool
  failure : Option Bool
  success : Option Bool
deriving DecidableEq, Repr

/-- Lines 24-31: the result codes as a function of the dry-run flag. -/
def result_code (test : Bool) : ResultCode :=
  { none_ := some true,
    failure := if test then none else some false,
    success := if test then none else some true }

/-- Argv of the alias-existence probe, line 57. -/
def list_alias_argv (keytool trust_store aliasN storepass : String) : List String :=
  [keytool, "-keystore", trust_store, "-list", "-alias", aliasN, "-storepass", storepass]

/-- Argv of the unfiltered store listing, line 72. -/
def list_all_argv (keytool trust_store storepass : String) : List String :=
  [keytool, "-keystore", trust_store, "-list", "-storepass", storepass]

/-- Argv of the certificate decode probe, line 82. -/
def printcert_argv (keytool cert_file : String) : List String :=
  [keytool, "-printcert", "-file", cert_file]

/-- Argv of the mutating import, lines 93-94. -/
def importcert_argv (keytool cert_file trust_store aliasN storepass : String) :
    List String :=
  [keytool, "-importcert", "-trustcacerts", "-file", cert_file, "-keystore", trust_store,
   "-alias", aliasN, "-storepass", storepass, "-noprompt"]

/-- Lines 56-116 of `trust_cert`: everything after the three discovery steps
(alias probe, unfiltered listing, certificate decode probe, apply step),
together with the trace of the invocations this part performs.  Note that the
decode probe on line 84 is the one call made without
`stderr=subprocess.STDOUT`. -/
def apply_stage (w : World) (name cert_file aliasN storepass trust_store keytool : String) :
    Except PyExc Ret × List Call :=
  match check_output w (list_alias_argv keytool trust_store aliasN storepass) true with
  | .osError =>
    (.error .uncaughtOSError,
     [⟨.listAlias, list_alias_argv keytool trust_store aliasN storepass⟩])
  | .ok _ =>
    (.ok { name := name, changes := none, result := (result_code w.test).none_,
           comment := "CA alias exists in trust store." },
     [⟨.listAlias, list_alias_argv keytool trust_store aliasN storepass⟩])
  | .calledProcessError _ =>
    match check_output w (list_all_argv keytool trust_store storepass) true with
    | .osError =>
      (.error .uncaughtOSError,
       [⟨.listAlias, list_alias_argv keytool trust_store aliasN storepass⟩,
        ⟨.listAll, list_all_argv keytool trust_store storepass⟩])
    | .calledProcessError out =>
      (.ok { name := name, changes := none, result := (result_code w.test).failure,
             comment := "Keystore " ++ trust_store ++ " problem:\n" ++ out },
       [⟨.listAlias, list_alias_argv keytool trust_store aliasN storepass⟩,
        ⟨.listAll, list_all_argv keytool trust_store storepass⟩])
    | .ok _ =>
      match check_output w (printcert_argv keytool cert_file) false with
      | .osError =>
        (.error .uncaughtOSError,
         [⟨.listAlias, list_alias_argv keytool trust_store aliasN storepass⟩,
          ⟨.listAll, list_all_argv keytool trust_store storepass⟩,
          ⟨.printCert, printcert_argv keytool cert_file⟩])
      | .calledProcessError out =>
        (.ok { name := name, changes := none, result := (result_code w.test).failure,
               comment := "File " ++ cert_file ++ " is not a valid certificate:\n" ++ out },
         [⟨.listAlias, list_alias_argv keytool trust_store aliasN storepass⟩,
          ⟨.listAll, list_all_argv keytool trust_store storepass⟩,
          ⟨.printCert, printcert_argv keytool cert_file⟩])
      | .ok _ =>
        if w.test = false then
          match check_output w (importcert_argv keytool cert_file trust_store aliasN storepass) true with
          | .osError =>
            (.error .uncaughtOSError,
             [⟨.listAlias, list_alias_argv keytool trust_store aliasN storepass⟩,
              ⟨.listAll, list_all_argv keytool trust_store storepass⟩,
              ⟨.printCert, printcert_argv keytool cert_file⟩,
              ⟨.importCert, importcert_argv keytool cert_file trust_store aliasN storepass⟩])
          | .calledProcessError out =>
            (.ok { name := name, changes := none, result := (result_code w.test).failure,
                   comment := out },
             [⟨.listAlias, list_alias_argv keytool trust_store aliasN storepass⟩,
              ⟨.listAll, list_all_argv keytool trust_store storepass⟩,
              ⟨.printCert, printcert_argv keytool cert_file⟩,
              ⟨.importCert, importcert_argv keytool cert_file trust_store aliasN storepass⟩])
          | .ok _ =>
            (.ok { name := name, changes := some ⟨"", aliasN⟩, result := (result_code w.test).success,
                   comment := "Certificate \"" ++ aliasN ++ "\" was added as a trusted root." },
             [⟨.listAlias, list_alias_argv keytool trust_store aliasN storepass⟩,
              ⟨.listAll, list_all_argv keytool trust_store storepass⟩,
              ⟨.printCert, printcert_argv keytool cert_file⟩,
              ⟨.importCert, importcert_argv keytool cert_file trust_store aliasN storepass⟩])
        else
          (.ok { name := name, changes := some ⟨"", aliasN⟩, result := (result_code w.test).success,
                 comment := "Certificate \"" ++ aliasN ++ "\" will be added as a trusted root." },
           [⟨.listAlias, list_alias_argv keytool trust_store aliasN storepass⟩,
            ⟨.listAll, list_all_argv keytool trust_store storepass⟩,
            ⟨.printCert, printcert_argv keytool cert_file⟩])

/-- Model of `trust_cert` (lines 7-116): the full convergence function, returning the
Python return dictionary (or the uncaught exception) together with the trace
of every external invocation performed.  `storepass` defaults to
`"changeit"` and `java_home` to `None` in the source; both are explicit
arguments here.  The `os.putenv` call on line 40 mutates the ambient process
environment only and is not part of the modelled state. -/
def trust_cert (w : World) (name cert_file aliasN storepass : String)
    (java_home : Option String) : Except PyExc Ret × List Call :=
  match _find_java_home w java_home with
  | (.error e, tr0) => (.error e, tr0)
  | (.ok jh?, tr0) =>
    if truthy jh? = false then
      (.ok { name := name, changes := none, result := (result_code w.test).none_,
             comment := "Java is not installed" }, tr0)
    else
      match _find_trust_store w (jh?.getD "") with
      | none =>
        (.ok { name := name, changes := none, result := (result_code w.test).failure,
               comment := "Could not find Java trust store." }, tr0)
      | some trust_store =>
        match _find_keytool w (jh?.getD "") with
        | (.error e, tr1) => (.error e, tr0 ++ tr1)
        | (.ok none, tr1) =>
          (.ok { name := name, changes := none, result := (result_code w.test).failure,
                 comment := "Could not find keytool binary." }, tr0 ++ tr1)
        | (.ok (some keytool), tr1) =>
          ((apply_stage w name cert_file aliasN storepass trust_store keytool).1,
           tr0 ++ tr1 ++ (apply_stage w name cert_file aliasN storepass trust_store keytool).2)

/-- Replace the behaviour of one argv in the world: used to express the trust
store state left behind by a successful import, which changes what a later
identical listing invocation observes. -/
def setExec (w : World) (a : List String) (r : Exec) : World :=
  { w with exec := fun b => if b = a then r else w.exec b }

/-- The keytool path found first on the probe order. -/
def kt0 : String := "/usr/bin/keytool"

/-- A concrete installation root for concrete worlds. -/
def jhome : String := "/opt/java"

/-- The concrete trust store path found by the walk in the worlds below. -/
def ts0 : String := path_join "/opt/java/lib/security" "cacerts"

/-- A world on which the whole live success path of `trust_cert` runs: Java
at `/opt/java`, one `cacerts` file, `keytool` at `/usr/bin/keytool`, the
alias `myca` absent (the filtered listing exits nonzero), and every other
invocation succeeding. -/
def W_live : World :=
  { test := false,
    realpath := fun p => p,
    isdir := fun _ => true,
    walk := fun r => if r = jhome then [("/opt/java/lib/security", [], ["cacerts"])] else [],
    exec := fun a =>
      if a = list_alias_argv kt0 ts0 "myca" "changeit" then Exec.runs false "no alias" ""
      else Exec.runs true "ok" "" }

/-- The world `W_live` with the dry-run flag set. -/
def W_test : World := { W_live with test := true }

/-- The world `W_live` after the alias has been imported: the filtered listing now
succeeds. -/
def W_present : World :=
  setExec W_live (list_alias_argv kt0 ts0 "myca" "changeit") (Exec.runs true "found" "")

/-- The world `W_live` with a wrong store password: both listings exit nonzero, the
unfiltered one with diagnostic text. -/
def W_badpass : World :=
  { W_live with exec := fun a =>
      if a = list_alias_argv kt0 ts0 "myca" "changeit" then Exec.runs false "no alias" ""
      else if a = list_all_argv kt0 ts0 "changeit" then Exec.runs false "keytool error: password was incorrect" ""
      else Exec.runs true "ok" "" }

/-- The world `W_live` with an invalid certificate file: the decode probe exits
nonzero, writing its diagnostic to stderr only. -/
def W_badcert : World :=
  { W_live with exec := fun a =>
      if a = list_alias_argv kt0 ts0 "myca" "changeit" then Exec.runs false "no alias" ""
      else if a = printcert_argv kt0 "/tmp/ca.pem" then Exec.runs false "" "STDERRTEXT"
      else Exec.runs true "ok" "" }

/-- A world with no Java installation: no override is usable and the shell
query exits nonzero. -/
def W_nojava : World :=
  { test := false,
    realpath := fun p => p,
    isdir := fun _ => false,
    walk := fun _ => [],
    exec := fun a => if a = bash_query then Exec.runs false "" "" else Exec.runs true "ok" "" }

/-- The world `W_live` with the keytool binary missing from `/usr/bin/keytool`: the
probe raises `OSError` instead of `CalledProcessError`. -/
def W_nokt : World :=
  { W_live with exec := fun a =>
      if a = [kt0, "-help"] then Exec.noBinary else Exec.runs true "ok" "" }

/-- A world with `/bin/bash` missing: the environment query itself raises
`OSError`. -/
def W_noshell : World :=
  { test := false,
    realpath := fun p => p,
    isdir := fun _ => false,
    walk := fun _ => [],
    exec := fun a => if a = bash_query then Exec.noBinary else Exec.runs true "ok" "" }

/-- A world in which no directory exists at all, yet the shell query echoes
an installation root: exercises the absence of a directory check on the
discovered value. -/
def W10 : World :=
  { test := false,
    realpath := fun p => p,
    isdir := fun _ => false,
    walk := fun _ => [],
    exec := fun a => if a = bash_query then Exec.runs true "/discovered" "" else Exec.runs true "ok" "" }

/-- The return dictionary of the live success path on `W_live`. -/
def retLive : Ret :=
  { name := "n", changes := some ⟨"", "myca"⟩, result := some true,
    comment := "Certificate \"myca\" was added as a trusted root." }

/-- The invocation trace of the live success path on `W_live`. -/
def trLive : List Call :=
  [⟨Tag.helpProbe, [kt0, "-help"]⟩,
   ⟨Tag.listAlias, list_alias_argv kt0 ts0 "myca" "changeit"⟩,
   ⟨Tag.listAll, list_all_argv kt0 ts0 "changeit"⟩,
   ⟨Tag.printCert, printcert_argv kt0 "/tmp/ca.pem"⟩,
   ⟨Tag.importCert, importcert_argv kt0 "/tmp/ca.pem" ts0 "myca" "changeit"⟩]


lemma mem_fjh_tag (w : World) (j : Option String) :
    ∀ c ∈ (_find_java_home w j).2, c.tag = Tag.bashQuery := by
  unfold _find_java_home shell_java_home
  cases j with
  | none => cases h : check_output w bash_query false <;> simp [h]
  | some jh =>
    by_cases hd : (jh != "" && w.isdir (w.realpath jh)) = true
    · simp [hd]
    · cases h : check_output w bash_query false <;> simp [hd, h]

lemma mem_fkt_tag (w : World) (jh : String) :
    ∀ c ∈ (_find_keytool w jh).2, c.tag = Tag.helpProbe := by
  unfold _find_keytool
  cases h1 : check_output w ["/usr/bin/keytool", "-help"] true <;> simp [h1]
  cases h2 : check_output w [jh ++ "/bin/keytool", "-help"] true <;> simp [h2]

lemma trust_cert_eq_apply_stage (w : World) (n cf a p : String) (j : Option String)
    (jh ts kt : String) (t0 t1 : List Call)
    (h0 : _find_java_home w j = (.ok (some jh), t0)) (hjh : jh ≠ "")
    (hts : _find_trust_store w jh = some ts)
    (h1 : _find_keytool w jh = (.ok (some kt), t1)) :
    trust_cert w n cf a p j =
      ((apply_stage w n cf a p ts kt).1,
       t0 ++ t1 ++ (apply_stage w n cf a p ts kt).2) := by
  unfold trust_cert
  rw [h0]
  simp [truthy, hjh, hts, h1]

lemma apply_stage_alias_present (w : World) (n cf a p ts kt o : String)
    (h : check_output w (list_alias_argv kt ts a p) true = .ok o) :
    apply_stage w n cf a p ts kt =
      (.ok { name := n, changes := none, result := some true,
             comment := "CA alias exists in trust store." },
       [⟨Tag.listAlias, list_alias_argv kt ts a p⟩]) := by
  simp [apply_stage, h, result_code]

lemma apply_stage_store_bad (w : World) (n cf a p ts kt o out : String)
    (ha : check_output w (list_alias_argv kt ts a p) true = .calledProcessError o)
    (hl : check_output w (list_all_argv kt ts p) true = .calledProcessError out) :
    apply_stage w n cf a p ts kt =
      (.ok { name := n, changes := none, result := (result_code w.test).failure,
             comment := "Keystore " ++ ts ++ " problem:\n" ++ out },
       [⟨Tag.listAlias, list_alias_argv kt ts a p⟩, ⟨Tag.listAll, list_all_argv kt ts p⟩]) := by
  simp [apply_stage, ha, hl]

lemma apply_stage_cert_bad (w : World) (n cf a p ts kt o o2 out : String)
    (ha : check_output w (list_alias_argv kt ts a p) true = .calledProcessError o)
    (hl : check_output w (list_all_argv kt ts p) true = .ok o2)
    (hc : check_output w (printcert_argv kt cf) false = .calledProcessError out) :
    apply_stage w n cf a p ts kt =
      (.ok { name := n, changes := none, result := (result_code w.test).failure,
             comment := "File " ++ cf ++ " is not a valid certificate:\n" ++ out },
       [⟨Tag.listAlias, list_alias_argv kt ts a p⟩, ⟨Tag.listAll, list_all_argv kt ts p⟩,
        ⟨Tag.printCert, printcert_argv kt cf⟩]) := by
  simp [apply_stage, ha, hl, hc]

lemma apply_stage_live_success (w : World) (n cf a p ts kt o o2 o3 o4 : String)
    (hw : w.test = false)
    (ha : check_output w (list_alias_argv kt ts a p) true = .calledProcessError o)
    (hl : check_output w (list_all_argv kt ts p) true = .ok o2)
    (hc : check_output w (printcert_argv kt cf) false = .ok o3)
    (hi : check_output w (importcert_argv kt cf ts a p) true = .ok o4) :
    apply_stage w n cf a p ts kt =
      (.ok { name := n, changes := some ⟨"", a⟩, result := some true,
             comment := "Certificate \"" ++ a ++ "\" was added as a trusted root." },
       [⟨Tag.listAlias, list_alias_argv kt ts a p⟩, ⟨Tag.listAll, list_all_argv kt ts p⟩,
        ⟨Tag.printCert, printcert_argv kt cf⟩,
        ⟨Tag.importCert, importcert_argv kt cf ts a p⟩]) := by
  simp [apply_stage, ha, hl, hc, hi, hw, result_code]

lemma apply_stage_preview (w : World) (n cf a p ts kt o o2 o3 : String)
    (hw : w.test = true)
    (ha : check_output w (list_alias_argv kt ts a p) true = .calledProcessError o)
    (hl : check_output w (list_all_argv kt ts p) true = .ok o2)
    (hc : check_output w (printcert_argv kt cf) false = .ok o3) :
    apply_stage w n cf a p ts kt =
      (.ok { name := n, changes := some ⟨"", a⟩, result := none,
             comment := "Certificate \"" ++ a ++ "\" will be added as a trusted root." },
       [⟨Tag.listAlias, list_alias_argv kt ts a p⟩, ⟨Tag.listAll, list_all_argv kt ts p⟩,
        ⟨Tag.printCert, printcert_argv kt cf⟩]) := by
  simp [apply_stage, ha, hl, hc, hw, result_code]

lemma apply_stage_result_range (w : World) (n cf a p ts kt : String) (ret : Ret)
    (h : (apply_stage w n cf a p ts kt).1 = .ok ret) :
    ret.result = (result_code w.test).none_ ∨ ret.result = (result_code w.test).failure ∨
      ret.result = (result_code w.test).success := by
  unfold apply_stage at h
  cases ha : check_output w (list_alias_argv kt ts a p) true <;> rw [ha] at h
  case ok o => simp at h; subst h; simp
  case osError => simp at h
  case calledProcessError o =>
    cases hl : check_output w (list_all_argv kt ts p) true <;> rw [hl] at h
    case osError => simp at h
    case calledProcessError o2 => simp at h; subst h; simp
    case ok o2 =>
      cases hc : check_output w (printcert_argv kt cf) false <;> rw [hc] at h
      case osError => simp at h
      case calledProcessError o3 => simp at h; subst h; simp
      case ok o3 =>
        by_cases hw : w.test = false
        · rw [if_pos hw] at h
          cases hi : check_output w (importcert_argv kt cf ts a p) true <;> rw [hi] at h
          · simp at h; subst h; simp
          · simp at h; subst h; simp
          · simp at h
        · rw [if_neg hw] at h; simp at h; subst h; simp

lemma apply_stage_no_import_of_test (w : World) (n cf a p ts kt : String)
    (hw : w.test = true) :
    ∀ c ∈ (apply_stage w n cf a p ts kt).2, c.tag ≠ Tag.importCert := by
  unfold apply_stage
  cases ha : check_output w (list_alias_argv kt ts a p) true
  case ok o => simp
  case osError => simp
  case calledProcessError o =>
    cases hl : check_output w (list_all_argv kt ts p) true
    case osError => simp
    case calledProcessError o2 => simp
    case ok o2 =>
      cases hc : check_output w (printcert_argv kt cf) false
      case osError => simp
      case calledProcessError o3 => simp
      case ok o3 => simp [hw]

lemma check_output_setExec_ne (w : World) (a b : List String) (r : Exec) (s : Bool)
    (h : b ≠ a) : check_output (setExec w a r) b s = check_output w b s := by
  simp [check_output, setExec, h]

lemma fjh_setExec (w : World) (a : List String) (r : Exec) (j : Option String)
    (h : bash_query ≠ a) :
    _find_java_home (setExec w a r) j = _find_java_home w j := by
  unfold _find_java_home shell_java_home
  rw [check_output_setExec_ne w a bash_query r false h]
  rfl

lemma fkt_setExec (w : World) (a : List String) (r : Exec) (jh : String)
    (h1 : ["/usr/bin/keytool", "-help"] ≠ a)
    (h2 : [jh ++ "/bin/keytool", "-help"] ≠ a) :
    _find_keytool (setExec w a r) jh = _find_keytool w jh := by
  unfold _find_keytool
  rw [check_output_setExec_ne w a _ r true h1, check_output_setExec_ne w a _ r true h2]

lemma fts_setExec (w : World) (a : List String) (r : Exec) (jh : String) :
    _find_trust_store (setExec w a r) jh = _find_trust_store w jh := rfl

lemma bash_query_ne_list_alias (kt ts a p : String) :
    bash_query ≠ list_alias_argv kt ts a p := by
  intro h
  have := congrArg List.length h
  simp [bash_query, list_alias_argv] at this

lemma help_ne_list_alias (c kt ts a p : String) :
    [c, "-help"] ≠ list_alias_argv kt ts a p := by
  intro h
  have := congrArg List.length h
  simp [list_alias_argv] at this

/-- C1 (code bug): the claim says `trust_cert` always returns a fully
populated outcome record and that no anticipated failure — missing shell,
missing keytool binary, failing tool invocation — escapes as an uncaught
exception.  The source catches only `subprocess.CalledProcessError`; invoking
a missing executable raises `OSError` (`FileNotFoundError`) instead, so on a
host with no keytool binary (`W_nokt`) or no `/bin/bash` (`W_noshell`) the
exception escapes and no outcome record is returned.  The comment on line
154 ("keytool wasn't found yet") shows the handler was meant to cover the
missing-binary case. -/
theorem trust_cert_uncaught_oserror :
    (trust_cert W_nokt "n" "/tmp/ca.pem" "myca" "changeit" (some jhome)).1 =
      .error .uncaughtOSError
    ∧ (trust_cert W_noshell "n" "/tmp/ca.pem" "myca" "changeit" none).1 =
      .error .uncaughtOSError := ⟨rfl, rfl⟩

/-- C9: with no explicit installation-root override, when the shell query
exits nonzero or echoes an empty value, `trust_cert` returns the neutral
status `True` with comment "Java is not installed" and empty changes, and its
whole invocation trace is the single shell query: no further probe and no
mutation are performed. -/
theorem trust_cert_java_not_installed (w : World) (n cf a p : String)
    (h : (∃ o, check_output w bash_query false = .calledProcessError o) ∨
         check_output w bash_query false = .ok "") :
    trust_cert w n cf a p none =
      (.ok { name := n, changes := none, result := some true,
             comment := "Java is not installed" },
       [⟨Tag.bashQuery, bash_query⟩]) := by
  obtain ⟨o, h⟩ | h := h <;>
    simp [trust_cert, _find_java_home, shell_java_home, h, truthy, result_code]

/-- Witness for C9 on the concrete world `W_nojava`. -/
theorem trust_cert_java_not_installed_witness :
    trust_cert W_nojava "n" "/tmp/ca.pem" "myca" "changeit" none =
      (.ok { name := "n", changes := none, result := some true,
             comment := "Java is not installed" },
       [⟨Tag.bashQuery, bash_query⟩]) :=
  trust_cert_java_not_installed W_nojava "n" "/tmp/ca.pem" "myca" "changeit"
    (Or.inl ⟨"", rfl⟩)

/-- C10 (implicit): `_find_java_home` validates only the explicit override,
by checking that its symlink-resolved path is an existing directory; a truthy
override failing that check silently falls back to shell discovery instead of
failing, and a value obtained from the shell query is returned as the
installation root with no directory-existence check at all (the second
conjunct holds for every world, in particular ones where no directory
exists). -/
theorem find_java_home_validation (w : World) (jh : String)
    (h1 : jh ≠ "") (h2 : w.isdir (w.realpath jh) = false) :
    _find_java_home w (some jh) = _find_java_home w none
    ∧ (∀ out, check_output w bash_query false = .ok out →
        (_find_java_home w none).1 = .ok (some out))
    ∧ (∀ (v : World) (r : String), r ≠ "" → v.isdir (v.realpath r) = true →
        _find_java_home v (some r) = (.ok (some r), [])) := by
  refine ⟨?_, ?_, ?_⟩
  · simp [_find_java_home, h2]
  · intro out h
    simp [_find_java_home, shell_java_home, h]
  · intro v r hr hd
    simp [_find_java_home, hr, hd]

/-- Witness for C10: on `W10` no directory exists at all, yet the overridden
root falls back to discovery and the discovered root is accepted unchecked;
on `W_live` a valid override is accepted as is. -/
theorem find_java_home_validation_witness :
    _find_java_home W10 (some "/nodir") = _find_java_home W10 none
    ∧ (_find_java_home W10 none).1 = .ok (some "/discovered")
    ∧ _find_java_home W_live (some jhome) = (.ok (some jhome), []) := by
  have h := find_java_home_validation W10 "/nodir" (by decide) rfl
  exact ⟨h.1, h.2.1 "/discovered" rfl, h.2.2 W_live jhome (by decide) rfl⟩

lemma trust_cert_alias_ok (w : World) (n cf a p : String)
    (j : Option String) (jh ts kt : String) (t0 t1 : List Call) (o : String)
    (h0 : _find_java_home w j = (.ok (some jh), t0)) (hjh : jh ≠ "")
    (hts : _find_trust_store w jh = some ts)
    (h1 : _find_keytool w jh = (.ok (some kt), t1))
    (ha : check_output w (list_alias_argv kt ts a p) true = .ok o) :
    trust_cert w n cf a p j =
      (.ok { name := n, changes := none, result := some true,
             comment := "CA alias exists in trust store." },
       t0 ++ t1 ++ [⟨Tag.listAlias, list_alias_argv kt ts a p⟩])
    ∧ ∀ c ∈ (trust_cert w n cf a p j).2,
        c.tag ≠ Tag.listAll ∧ c.tag ≠ Tag.printCert ∧ c.tag ≠ Tag.importCert := by
  have he := trust_cert_eq_apply_stage w n cf a p j jh ts kt t0 t1 h0 hjh hts h1
  have hs := apply_stage_alias_present w n cf a p ts kt o ha
  rw [he, hs]
  refine ⟨rfl, ?_⟩
  intro c hc
  simp only [List.append_assoc, List.mem_append, List.mem_singleton] at hc
  rcases hc with hc | hc | hc
  · have := mem_fjh_tag w j c (by rw [h0]; exact hc)
    simp [this]
  · have := mem_fkt_tag w jh c (by rw [h1]; exact hc)
    simp [this]
  · subst hc; simp

/-- C6: whenever discovery succeeds and the list-by-alias probe succeeds
(alias already present), `trust_cert` returns the neutral status `True` with
a comment saying the alias exists and an empty change record, and it
short-circuits at the alias probe: the trace ends there and contains no
list-all, no certificate-decode and no import invocation. -/
theorem trust_cert_alias_already_present (w : World) (n cf a p : String)
    (j : Option String) (jh ts kt : String) (t0 t1 : List Call) (o : String)
    (h0 : _find_java_home w j = (.ok (some jh), t0)) (hjh : jh ≠ "")
    (hts : _find_trust_store w jh = some ts)
    (h1 : _find_keytool w jh = (.ok (some kt), t1))
    (ha : check_output w (list_alias_argv kt ts a p) true = .ok o) :
    trust_cert w n cf a p j =
      (.ok { name := n, changes := none, result := some true,
             comment := "CA alias exists in trust store." },
       t0 ++ t1 ++ [⟨Tag.listAlias, list_alias_argv kt ts a p⟩])
    ∧ ∀ c ∈ (trust_cert w n cf a p j).2,
        c.tag ≠ Tag.listAll ∧ c.tag ≠ Tag.printCert ∧ c.tag ≠ Tag.importCert :=
  trust_cert_alias_ok w n cf a p j jh ts kt t0 t1 o h0 hjh hts h1 ha

/-- Witness for C6 on `W_present`, where the alias listing succeeds. -/
theorem trust_cert_alias_already_present_witness :
    trust_cert W_present "n" "/tmp/ca.pem" "myca" "changeit" (some jhome) =
      (.ok { name := "n", changes := none, result := some true,
             comment := "CA alias exists in trust store." },
       [] ++ [⟨Tag.helpProbe, [kt0, "-help"]⟩] ++
         [⟨Tag.listAlias, list_alias_argv kt0 ts0 "myca" "changeit"⟩]) :=
  (trust_cert_alias_already_present W_present "n" "/tmp/ca.pem" "myca" "changeit"
    (some jhome) jhome ts0 kt0 [] [⟨Tag.helpProbe, [kt0, "-help"]⟩] ("found" ++ "")
    rfl (by decide) rfl rfl rfl).1

/-- C2 (idempotence): if a live-mode run of `trust_cert` returns the success
outcome (the import happened, recorded in `changes`), then a second live-mode
run with identical inputs against the state the first left behind — the same
world except that the list-by-alias probe now succeeds — returns the neutral
already-present outcome "CA alias exists in trust store." and stops at the
alias probe: no further probe and no mutating invocation. -/
theorem trust_cert_idempotent (w : World) (n cf a p : String) (j : Option String)
    (jh ts kt : String) (t0 t1 : List Call) (ret1 : Ret) (tr1 : List Call) (o e : String)
    (hlive : w.test = false)
    (h0 : _find_java_home w j = (.ok (some jh), t0)) (hjh : jh ≠ "")
    (hts : _find_trust_store w jh = some ts)
    (h1 : _find_keytool w jh = (.ok (some kt), t1))
    (hfirst : trust_cert w n cf a p j = (.ok ret1, tr1))
    (hsucc : ret1.changes = some ⟨"", a⟩) :
    trust_cert (setExec w (list_alias_argv kt ts a p) (Exec.runs true o e)) n cf a p j =
      (.ok { name := n, changes := none, result := some true,
             comment := "CA alias exists in trust store." },
       t0 ++ t1 ++ [⟨Tag.listAlias, list_alias_argv kt ts a p⟩])
    ∧ ∀ c ∈ (trust_cert (setExec w (list_alias_argv kt ts a p) (Exec.runs true o e))
               n cf a p j).2, c.tag ≠ Tag.importCert := by
  have h0' : _find_java_home (setExec w (list_alias_argv kt ts a p) (Exec.runs true o e)) j =
      (.ok (some jh), t0) := by
    rw [fjh_setExec w _ _ j (bash_query_ne_list_alias kt ts a p)]; exact h0
  have hts' : _find_trust_store (setExec w (list_alias_argv kt ts a p) (Exec.runs true o e)) jh =
      some ts := by
    rw [fts_setExec]; exact hts
  have h1' : _find_keytool (setExec w (list_alias_argv kt ts a p) (Exec.runs true o e)) jh =
      (.ok (some kt), t1) := by
    rw [fkt_setExec w _ _ jh (help_ne_list_alias _ kt ts a p) (help_ne_list_alias _ kt ts a p)]
    exact h1
  have ha' : check_output (setExec w (list_alias_argv kt ts a p) (Exec.runs true o e))
      (list_alias_argv kt ts a p) true = .ok (o ++ e) := by
    simp [check_output, setExec]
  obtain ⟨hmain, hmem⟩ := trust_cert_alias_ok
    (setExec w (list_alias_argv kt ts a p) (Exec.runs true o e)) n cf a p j jh ts kt t0 t1
    (o ++ e) h0' hjh hts' h1' ha'
  exact ⟨hmain, fun c hc => (hmem c hc).2.2⟩

/-- Witness for C2: the live success run on `W_live` followed by a run on the
post-import world. -/
theorem trust_cert_idempotent_witness :
    trust_cert (setExec W_live (list_alias_argv kt0 ts0 "myca" "changeit")
        (Exec.runs true "found" "")) "n" "/tmp/ca.pem" "myca" "changeit" (some jhome) =
      (.ok { name := "n", changes := none, result := some true,
             comment := "CA alias exists in trust store." },
       [] ++ [⟨Tag.helpProbe, [kt0, "-help"]⟩] ++
         [⟨Tag.listAlias, list_alias_argv kt0 ts0 "myca" "changeit"⟩]) :=
  (trust_cert_idempotent W_live "n" "/tmp/ca.pem" "myca" "changeit" (some jhome)
    jhome ts0 kt0 [] [⟨Tag.helpProbe, [kt0, "-help"]⟩] retLive trLive "found" ""
    rfl rfl (by decide) rfl rfl rfl rfl).1

/-- C5: in live mode, when discovery succeeds, the alias is absent, the
unfiltered listing succeeds, the certificate probe succeeds and the import
succeeds, `trust_cert` returns the success status `True` with the past-tense
message containing the alias and the change record old empty, new alias. -/
theorem trust_cert_live_success (w : World) (n cf a p : String) (j : Option String)
    (jh ts kt : String) (t0 t1 : List Call) (o o2 o3 o4 : String)
    (hlive : w.test = false)
    (h0 : _find_java_home w j = (.ok (some jh), t0)) (hjh : jh ≠ "")
    (hts : _find_trust_store w jh = some ts)
    (h1 : _find_keytool w jh = (.ok (some kt), t1))
    (ha : check_output w (list_alias_argv kt ts a p) true = .calledProcessError o)
    (hl : check_output w (list_all_argv kt ts p) true = .ok o2)
    (hc : check_output w (printcert_argv kt cf) false = .ok o3)
    (hi : check_output w (importcert_argv kt cf ts a p) true = .ok o4) :
    (trust_cert w n cf a p j).1 =
      .ok { name := n, changes := some ⟨"", a⟩, result := some true,
            comment := "Certificate \"" ++ a ++ "\" was added as a trusted root." } := by
  rw [trust_cert_eq_apply_stage w n cf a p j jh ts kt t0 t1 h0 hjh hts h1,
      apply_stage_live_success w n cf a p ts kt o o2 o3 o4 hlive ha hl hc hi]

/-- Witness for C5 on `W_live`. -/
theorem trust_cert_live_success_witness :
    (trust_cert W_live "n" "/tmp/ca.pem" "myca" "changeit" (some jhome)).1 =
      .ok { name := "n", changes := some ⟨"", "myca"⟩, result := some true,
            comment := "Certificate \"myca\" was added as a trusted root." } :=
  trust_cert_live_success W_live "n" "/tmp/ca.pem" "myca" "changeit" (some jhome)
    jhome ts0 kt0 [] [⟨Tag.helpProbe, [kt0, "-help"]⟩] ("no alias" ++ "") ("ok" ++ "")
    "ok" ("ok" ++ "") rfl rfl (by decide) rfl rfl rfl rfl rfl rfl

/-- C7: in either mode, when discovery succeeds, the alias is absent and the
unfiltered listing fails, `trust_cert` returns the failure status of the
current mode with a comment embedding the tool's raw error text, an empty
change record, and no mutating invocation in the trace. -/
theorem trust_cert_store_unreadable (w : World) (n cf a p : String)
    (j : Option String) (jh ts kt : String) (t0 t1 : List Call) (o out : String)
    (h0 : _find_java_home w j = (.ok (some jh), t0)) (hjh : jh ≠ "")
    (hts : _find_trust_store w jh = some ts)
    (h1 : _find_keytool w jh = (.ok (some kt), t1))
    (ha : check_output w (list_alias_argv kt ts a p) true = .calledProcessError o)
    (hl : check_output w (list_all_argv kt ts p) true = .calledProcessError out) :
    (trust_cert w n cf a p j).1 =
      .ok { name := n, changes := none, result := (result_code w.test).failure,
            comment := "Keystore " ++ ts ++ " problem:\n" ++ out }
    ∧ ∀ c ∈ (trust_cert w n cf a p j).2, c.tag ≠ Tag.importCert := by
  have he := trust_cert_eq_apply_stage w n cf a p j jh ts kt t0 t1 h0 hjh hts h1
  have hs := apply_stage_store_bad w n cf a p ts kt o out ha hl
  rw [he, hs]
  refine ⟨rfl, ?_⟩
  intro c hc
  simp only [List.append_assoc, List.mem_append, List.mem_cons,
    List.mem_singleton, List.not_mem_nil, or_false] at hc
  rcases hc with hc | hc | hc | hc
  · have := mem_fjh_tag w j c (by rw [h0]; exact hc)
    simp [this]
  · have := mem_fkt_tag w jh c (by rw [h1]; exact hc)
    simp [this]
  · subst hc; simp
  · subst hc; simp

/-- Witness for C7 on `W_badpass`, where the unfiltered listing rejects the
password. -/
theorem trust_cert_store_unreadable_witness :
    (trust_cert W_badpass "n" "/tmp/ca.pem" "myca" "changeit" (some jhome)).1 =
      .ok { name := "n", changes := none, result := some false,
            comment := "Keystore " ++ ts0 ++ " problem:\n" ++
              ("keytool error: password was incorrect" ++ "") } :=
  (trust_cert_store_unreadable W_badpass "n" "/tmp/ca.pem" "myca" "changeit" (some jhome)
    jhome ts0 kt0 [] [⟨Tag.helpProbe, [kt0, "-help"]⟩] ("no alias" ++ "")
    ("keytool error: password was incorrect" ++ "") rfl (by decide) rfl rfl rfl rfl).1

/-- C8 counterexample: the decode probe on line 84 is invoked without
`stderr=subprocess.STDOUT`, so when the tool writes its diagnostic to stderr
only (as in `W_badcert`), the returned comment carries the captured stdout
(here empty) and not the combined stdout-and-stderr text — the claim's
"captured combined output (stdout and stderr)" is false at this input. -/
theorem trust_cert_printcert_stderr_counterexample :
    W_badcert.exec (printcert_argv kt0 "/tmp/ca.pem") = Exec.runs false "" "STDERRTEXT"
    ∧ (trust_cert W_badcert "n" "/tmp/ca.pem" "myca" "changeit" (some jhome)).1 =
      .ok { name := "n", changes := none, result := some false,
            comment := "File /tmp/ca.pem is not a valid certificate:\n" }
    ∧ "File /tmp/ca.pem is not a valid certificate:\n" ≠
      "File /tmp/ca.pem is not a valid certificate:\n" ++ ("" ++ "STDERRTEXT") :=
  ⟨rfl, rfl, by decide⟩

/-- C8 amended: when the certificate decode probe fails, `trust_cert` returns
the failure status of the current mode with a comment referencing the
certificate file path and embedding the text the probe captured, with an
empty change record and no mutating invocation; the captured text is the
probe's standard output only, since this is the one invocation made without
the stderr redirect. -/
theorem trust_cert_invalid_cert_stdout_only (w : World) (n cf a p : String)
    (j : Option String) (jh ts kt : String) (t0 t1 : List Call) (o o2 out : String)
    (h0 : _find_java_home w j = (.ok (some jh), t0)) (hjh : jh ≠ "")
    (hts : _find_trust_store w jh = some ts)
    (h1 : _find_keytool w jh = (.ok (some kt), t1))
    (ha : check_output w (list_alias_argv kt ts a p) true = .calledProcessError o)
    (hl : check_output w (list_all_argv kt ts p) true = .ok o2)
    (hc : check_output w (printcert_argv kt cf) false = .calledProcessError out) :
    (trust_cert w n cf a p j).1 =
      .ok { name := n, changes := none, result := (result_code w.test).failure,
            comment := "File " ++ cf ++ " is not a valid certificate:\n" ++ out }
    ∧ (∀ so se, w.exec (printcert_argv kt cf) = Exec.runs false so se → out = so)
    ∧ ∀ c ∈ (trust_cert w n cf a p j).2, c.tag ≠ Tag.importCert := by
  have he := trust_cert_eq_apply_stage w n cf a p j jh ts kt t0 t1 h0 hjh hts h1
  have hs := apply_stage_cert_bad w n cf a p ts kt o o2 out ha hl hc
  refine ⟨?_, ?_, ?_⟩
  · rw [he, hs]
  · intro so se hx
    have h2 : check_output w (printcert_argv kt cf) false = .calledProcessError so := by
      simp [check_output, hx]
    exact ProcResult.calledProcessError.inj (hc.symm.trans h2)
  · rw [he, hs]
    intro c hc2
    simp only [List.append_assoc, List.mem_append, List.mem_cons,
      List.mem_singleton, List.not_mem_nil, or_false] at hc2
    rcases hc2 with hc2 | hc2 | hc2 | hc2 | hc2
    · have := mem_fjh_tag w j c (by rw [h0]; exact hc2)
      simp [this]
    · have := mem_fkt_tag w jh c (by rw [h1]; exact hc2)
      simp [this]
    · subst hc2; simp
    · subst hc2; simp
    · subst hc2; simp

/-- Witness for the amended C8 on `W_badcert`: the comment embeds the
captured stdout (empty here) and the stderr text is dropped. -/
theorem trust_cert_invalid_cert_stdout_only_witness :
    (trust_cert W_badcert "n" "/tmp/ca.pem" "myca" "changeit" (some jhome)).1 =
      .ok { name := "n", changes := none, result := some false,
            comment := "File " ++ "/tmp/ca.pem" ++ " is not a valid certificate:\n" ++ "" } :=
  (trust_cert_invalid_cert_stdout_only W_badcert "n" "/tmp/ca.pem" "myca" "changeit"
    (some jhome) jhome ts0 kt0 [] [⟨Tag.helpProbe, [kt0, "-help"]⟩] ("no alias" ++ "")
    ("ok" ++ "") "" rfl (by decide) rfl rfl rfl rfl rfl).1

lemma trust_cert_fjh_error (w : World) (n cf a p : String) (j : Option String)
    (e : PyExc) (t0 : List Call)
    (hfj : _find_java_home w j = (.error e, t0)) :
    trust_cert w n cf a p j = (.error e, t0) := by
  unfold trust_cert; rw [hfj]

lemma trust_cert_neutral_java (w : World) (n cf a p : String) (j : Option String)
    (jh? : Option String) (t0 : List Call)
    (hfj : _find_java_home w j = (.ok jh?, t0)) (htr : truthy jh? = false) :
    trust_cert w n cf a p j =
      (.ok { name := n, changes := none, result := (result_code w.test).none_,
             comment := "Java is not installed" }, t0) := by
  unfold trust_cert; rw [hfj]; simp [htr]

lemma trust_cert_ts_missing (w : World) (n cf a p : String) (j : Option String)
    (jh : String) (t0 : List Call)
    (hfj : _find_java_home w j = (.ok (some jh), t0)) (hjh : jh ≠ "")
    (hts : _find_trust_store w jh = none) :
    trust_cert w n cf a p j =
      (.ok { name := n, changes := none, result := (result_code w.test).failure,
             comment := "Could not find Java trust store." }, t0) := by
  unfold trust_cert; rw [hfj]; simp [truthy, hjh, hts]

lemma trust_cert_kt_error (w : World) (n cf a p : String) (j : Option String)
    (jh ts : String) (t0 t1 : List Call) (e : PyExc)
    (hfj : _find_java_home w j = (.ok (some jh), t0)) (hjh : jh ≠ "")
    (hts : _find_trust_store w jh = some ts)
    (hkt : _find_keytool w jh = (.error e, t1)) :
    trust_cert w n cf a p j = (.error e, t0 ++ t1) := by
  unfold trust_cert; rw [hfj]; simp [truthy, hjh, hts, hkt]

lemma trust_cert_kt_missing (w : World) (n cf a p : String) (j : Option String)
    (jh ts : String) (t0 t1 : List Call)
    (hfj : _find_java_home w j = (.ok (some jh), t0)) (hjh : jh ≠ "")
    (hts : _find_trust_store w jh = some ts)
    (hkt : _find_keytool w jh = (.ok none, t1)) :
    trust_cert w n cf a p j =
      (.ok { name := n, changes := none, result := (result_code w.test).failure,
             comment := "Could not find keytool binary." }, t0 ++ t1) := by
  unfold trust_cert; rw [hfj]; simp [truthy, hjh, hts, hkt]

lemma truthy_some_of_true (jh? : Option String) (h : ¬truthy jh? = false) :
    ∃ s, jh? = some s ∧ s ≠ "" := by
  cases jh? with
  | none => simp [truthy] at h
  | some s =>
    refine ⟨s, rfl, ?_⟩
    simpa [truthy] using h

lemma mem_trust_cert_trace (w : World) (n cf a p : String) (j : Option String) :
    ∀ c ∈ (trust_cert w n cf a p j).2,
      c.tag = Tag.bashQuery ∨ c.tag = Tag.helpProbe ∨
      ∃ ts kt, c ∈ (apply_stage w n cf a p ts kt).2 := by
  intro c hc
  rcases hfj : _find_java_home w j with ⟨r0, t0⟩
  have ht0 : ∀ x ∈ t0, x.tag = Tag.bashQuery := fun x hx =>
    mem_fjh_tag w j x (by rw [hfj]; exact hx)
  cases r0 with
  | error e =>
    rw [trust_cert_fjh_error w n cf a p j e t0 hfj] at hc
    exact Or.inl (ht0 c hc)
  | ok jh? =>
    by_cases htr : truthy jh? = false
    · rw [trust_cert_neutral_java w n cf a p j jh? t0 hfj htr] at hc
      exact Or.inl (ht0 c hc)
    · obtain ⟨jh, rfl, hjh⟩ := truthy_some_of_true jh? htr
      cases hts2 : _find_trust_store w jh with
      | none =>
        rw [trust_cert_ts_missing w n cf a p j jh t0 hfj hjh hts2] at hc
        exact Or.inl (ht0 c hc)
      | some ts =>
        rcases hkt : _find_keytool w jh with ⟨r1, t1⟩
        have ht1 : ∀ x ∈ t1, x.tag = Tag.helpProbe := fun x hx =>
          mem_fkt_tag w jh x (by rw [hkt]; exact hx)
        cases r1 with
        | error e =>
          rw [trust_cert_kt_error w n cf a p j jh ts t0 t1 e hfj hjh hts2 hkt] at hc
          rcases List.mem_append.mp hc with hc | hc
          · exact Or.inl (ht0 c hc)
          · exact Or.inr (Or.inl (ht1 c hc))
        | ok kt? =>
          cases kt? with
          | none =>
            rw [trust_cert_kt_missing w n cf a p j jh ts t0 t1 hfj hjh hts2 hkt] at hc
            rcases List.mem_append.mp hc with hc | hc
            · exact Or.inl (ht0 c hc)
            · exact Or.inr (Or.inl (ht1 c hc))
          | some kt =>
            rw [trust_cert_eq_apply_stage w n cf a p j jh ts kt t0 t1 hfj hjh hts2 hkt] at hc
            rcases List.mem_append.mp hc with hc | hc
            · rcases List.mem_append.mp hc with hc | hc
              · exact Or.inl (ht0 c hc)
              · exact Or.inr (Or.inl (ht1 c hc))
            · exact Or.inr (Or.inr ⟨ts, kt, hc⟩)

/-- C3: in dry-run mode the mutating import invocation is never executed —
whatever the outcome, no trace element is the import call, so the trust store
file is left unchanged — and when the apply step is reached (discovery
succeeded, alias absent, store listing and certificate probe succeeded) the
outcome is the mode's success code with the forward-looking message and the
change record old empty, new alias. -/
theorem trust_cert_dry_run_no_mutation (w : World) (n cf a p : String)
    (j : Option String) (htest : w.test = true) :
    (∀ c ∈ (trust_cert w n cf a p j).2, c.tag ≠ Tag.importCert)
    ∧ (∀ jh ts kt t0 t1,
        _find_java_home w j = (.ok (some jh), t0) → jh ≠ "" →
        _find_trust_store w jh = some ts →
        _find_keytool w jh = (.ok (some kt), t1) →
        (∃ o, check_output w (list_alias_argv kt ts a p) true = .calledProcessError o) →
        (∃ o, check_output w (list_all_argv kt ts p) true = .ok o) →
        (∃ o, check_output w (printcert_argv kt cf) false = .ok o) →
        (trust_cert w n cf a p j).1 =
          .ok { name := n, changes := some ⟨"", a⟩, result := (result_code w.test).success,
                comment := "Certificate \"" ++ a ++ "\" will be added as a trusted root." }) := by
  constructor
  · intro c hc
    rcases mem_trust_cert_trace w n cf a p j c hc with h | h | ⟨ts, kt, h⟩
    · simp [h]
    · simp [h]
    · exact apply_stage_no_import_of_test w n cf a p ts kt htest c h
  · intro jh ts kt t0 t1 h0 hjh hts h1 ha hl hc
    obtain ⟨o, ha⟩ := ha
    obtain ⟨o2, hl⟩ := hl
    obtain ⟨o3, hc⟩ := hc
    rw [trust_cert_eq_apply_stage w n cf a p j jh ts kt t0 t1 h0 hjh hts h1,
        apply_stage_preview w n cf a p ts kt o o2 o3 htest ha hl hc]
    simp [htest, result_code]

/-- Witness for C3 on the dry-run world `W_test`: no import call in the
trace, and the apply step reports the preview outcome with the dry-run
success sentinel `None`. -/
theorem trust_cert_dry_run_no_mutation_witness :
    (∀ c ∈ (trust_cert W_test "n" "/tmp/ca.pem" "myca" "changeit" (some jhome)).2,
      c.tag ≠ Tag.importCert)
    ∧ (trust_cert W_test "n" "/tmp/ca.pem" "myca" "changeit" (some jhome)).1 =
      .ok { name := "n", changes := some ⟨"", "myca"⟩, result := none,
            comment := "Certificate \"myca\" will be added as a trusted root." } :=
  ⟨(trust_cert_dry_run_no_mutation W_test "n" "/tmp/ca.pem" "myca" "changeit"
      (some jhome) rfl).1,
   (trust_cert_dry_run_no_mutation W_test "n" "/tmp/ca.pem" "myca" "changeit"
      (some jhome) rfl).2 jhome ts0 kt0 [] [⟨Tag.helpProbe, [kt0, "-help"]⟩]
      rfl (by decide) rfl rfl ⟨"no alias" ++ "", rfl⟩ ⟨"ok" ++ "", rfl⟩ ⟨"ok", rfl⟩⟩

/-- C4: every returned status is one of the three `result_code` values of the
active mode; in live mode these are `True` (neutral), `False` (failure) and
`True` (success), and in dry-run mode both the failure and the success codes
are replaced by the sentinel `None` — distinct from their live-mode values —
while the neutral code stays `True`. -/
theorem trust_cert_status_values (w : World) (n cf a p : String) (j : Option String)
    (ret : Ret)
    (h : (trust_cert w n cf a p j).1 = .ok ret) :
    (ret.result = (result_code w.test).none_ ∨ ret.result = (result_code w.test).failure ∨
       ret.result = (result_code w.test).success)
    ∧ result_code false = { none_ := some true, failure := some false, success := some true }
    ∧ result_code true = { none_ := some true, failure := none, success := none }
    ∧ (result_code true).failure ≠ (result_code false).failure
    ∧ (result_code true).success ≠ (result_code false).success := by
  refine ⟨?_, rfl, rfl, by simp [result_code], by simp [result_code]⟩
  rcases hfj : _find_java_home w j with ⟨r0, t0⟩
  cases r0 with
  | error e =>
    rw [trust_cert_fjh_error w n cf a p j e t0 hfj] at h
    simp at h
  | ok jh? =>
    by_cases htr : truthy jh? = false
    · rw [trust_cert_neutral_java w n cf a p j jh? t0 hfj htr] at h
      simp at h; subst h; simp
    · obtain ⟨jh, rfl, hjh⟩ := truthy_some_of_true jh? htr
      cases hts2 : _find_trust_store w jh with
      | none =>
        rw [trust_cert_ts_missing w n cf a p j jh t0 hfj hjh hts2] at h
        simp at h; subst h; simp
      | some ts =>
        rcases hkt : _find_keytool w jh with ⟨r1, t1⟩
        cases r1 with
        | error e =>
          rw [trust_cert_kt_error w n cf a p j jh ts t0 t1 e hfj hjh hts2 hkt] at h
          simp at h
        | ok kt? =>
          cases kt? with
          | none =>
            rw [trust_cert_kt_missing w n cf a p j jh ts t0 t1 hfj hjh hts2 hkt] at h
            simp at h; subst h; simp
          | some kt =>
            rw [trust_cert_eq_apply_stage w n cf a p j jh ts kt t0 t1 hfj hjh hts2 hkt] at h
            exact apply_stage_result_range w n cf a p ts kt ret h

/-- Witness for C4 at the live success outcome on `W_live`. -/
theorem trust_cert_status_values_witness :
    (retLive.result = (result_code W_live.test).none_ ∨
     retLive.result = (result_code W_live.test).failure ∨
     retLive.result = (result_code W_live.test).success)
    ∧ result_code false = { none_ := some true, failure := some false, success := some true }
    ∧ result_code true = { none_ := some true, failure := none, success := none }
    ∧ (result_code true).failure ≠ (result_code false).failure
    ∧ (result_code true).success ≠ (result_code false).success :=
  trust_cert_status_values W_live "n" "/tmp/ca.pem" "myca" "changeit" (some jhome)
    retLive rfl
